import Mathlib

/-!
Verification of the multi-stage e-book processing engine
(state manager, task scheduler, error classifier, quota manager,
search/download stages) against its natural-language specification.

The Python sources are shallowly embedded: each Python function that a
claim depends on is translated into an executable Lean definition over
explicit state; machine integers are Int/Nat, Python floats on the score
path are modelled as rationals, and code that can raise returns Except.
-/

namespace ZRE

/-- The item status enum (db/models.py, BookStatus). -/
inductive BookStatus
  | NEW
  | DETAIL_FETCHING
  | DETAIL_COMPLETE
  | SEARCH_QUEUED
  | SEARCH_ACTIVE
  | SEARCH_COMPLETE
  | SEARCH_COMPLETE_QUOTA_EXHAUSTED
  | SEARCH_NO_RESULTS
  | DOWNLOAD_QUEUED
  | DOWNLOAD_ACTIVE
  | DOWNLOAD_COMPLETE
  | DOWNLOAD_FAILED
  | UPLOAD_QUEUED
  | UPLOAD_ACTIVE
  | UPLOAD_COMPLETE
  | UPLOAD_FAILED
  | COMPLETED
  | SKIPPED_EXISTS
  | FAILED_PERMANENT
deriving DecidableEq, Repr

open BookStatus

/-- The string `.value` of each enum member (db/models.py). -/
def BookStatus.value : BookStatus → String
  | NEW => "new"
  | DETAIL_FETCHING => "detail_fetching"
  | DETAIL_COMPLETE => "detail_complete"
  | SEARCH_QUEUED => "search_queued"
  | SEARCH_ACTIVE => "search_active"
  | SEARCH_COMPLETE => "search_complete"
  | SEARCH_COMPLETE_QUOTA_EXHAUSTED => "search_complete_quota_exhausted"
  | SEARCH_NO_RESULTS => "search_no_results"
  | DOWNLOAD_QUEUED => "download_queued"
  | DOWNLOAD_ACTIVE => "download_active"
  | DOWNLOAD_COMPLETE => "download_complete"
  | DOWNLOAD_FAILED => "download_failed"
  | UPLOAD_QUEUED => "upload_queued"
  | UPLOAD_ACTIVE => "upload_active"
  | UPLOAD_COMPLETE => "upload_complete"
  | UPLOAD_FAILED => "upload_failed"
  | COMPLETED => "completed"
  | SKIPPED_EXISTS => "skipped_exists"
  | FAILED_PERMANENT => "failed_permanent"

/-- BookStateManager.VALID_TRANSITIONS (core/state_manager.py, lines 22-111).
The dict maps every status to its set of allowed target statuses. -/
def VALID_TRANSITIONS : BookStatus → List BookStatus
  | NEW => [DETAIL_FETCHING, DETAIL_COMPLETE, SKIPPED_EXISTS, FAILED_PERMANENT]
  | DETAIL_FETCHING => [DETAIL_COMPLETE, FAILED_PERMANENT, NEW]
  | DETAIL_COMPLETE => [SEARCH_QUEUED, SKIPPED_EXISTS, FAILED_PERMANENT]
  | SEARCH_QUEUED => [SEARCH_ACTIVE, SKIPPED_EXISTS, FAILED_PERMANENT]
  | SEARCH_ACTIVE =>
      [SEARCH_COMPLETE, SEARCH_NO_RESULTS, SKIPPED_EXISTS, FAILED_PERMANENT, SEARCH_QUEUED]
  | SEARCH_COMPLETE =>
      [DOWNLOAD_QUEUED, DOWNLOAD_ACTIVE, SEARCH_COMPLETE_QUOTA_EXHAUSTED, FAILED_PERMANENT]
  | SEARCH_COMPLETE_QUOTA_EXHAUSTED =>
      [DOWNLOAD_QUEUED, DOWNLOAD_ACTIVE, FAILED_PERMANENT]
  | SEARCH_NO_RESULTS => [SEARCH_QUEUED, FAILED_PERMANENT]
  | DOWNLOAD_QUEUED => [DOWNLOAD_ACTIVE, FAILED_PERMANENT, SEARCH_COMPLETE]
  | DOWNLOAD_ACTIVE =>
      [DOWNLOAD_COMPLETE, DOWNLOAD_FAILED, FAILED_PERMANENT, DOWNLOAD_QUEUED, SEARCH_COMPLETE]
  | DOWNLOAD_COMPLETE => [UPLOAD_QUEUED, COMPLETED, FAILED_PERMANENT]
  | DOWNLOAD_FAILED => [DOWNLOAD_QUEUED, FAILED_PERMANENT]
  | UPLOAD_QUEUED => [UPLOAD_ACTIVE, FAILED_PERMANENT]
  | UPLOAD_ACTIVE => [UPLOAD_COMPLETE, UPLOAD_FAILED, FAILED_PERMANENT, UPLOAD_QUEUED]
  | UPLOAD_COMPLETE => [COMPLETED]
  | UPLOAD_FAILED => [UPLOAD_QUEUED, FAILED_PERMANENT]
  | COMPLETED => []
  | SKIPPED_EXISTS => []
  | FAILED_PERMANENT => [NEW, SEARCH_QUEUED, DOWNLOAD_QUEUED, UPLOAD_QUEUED]

/-- BookStateManager.is_valid_transition (core/state_manager.py, lines 179-194).
Every member of the enum is a key of the dict, so the missing-key branch
never fires; the check is membership of the target in the allowed set. -/
def is_valid_transition (from_status to_status : BookStatus) : Bool :=
  (VALID_TRANSITIONS from_status).contains to_status

/-- One durable item row (db/models.py, DoubanBook), restricted to the
fields the state manager reads or writes. Times are abstract naturals. -/
structure Book where
  id : Nat
  status : BookStatus
  updated_at : Nat
  error_message : Option String
deriving DecidableEq, Repr

/-- One status-history row (db/models.py, BookStatusHistory). -/
structure HistoryEntry where
  book_id : Nat
  old_status : Option BookStatus
  new_status : BookStatus
  change_reason : String
  error_message : Option String
  processing_time : Option ℚ
  retry_count : Nat
deriving DecidableEq, Repr

/-- The slice of the durable store the state manager touches.
`get_raises` models the store failing (raising) when the session reads
or writes rows during a transition. -/
structure Db where
  books : List (Nat × Book)
  history : List HistoryEntry
  get_raises : Bool
deriving DecidableEq, Repr

/-- session.get(DoubanBook, book_id). -/
def Db.get_book (db : Db) (book_id : Nat) : Option Book :=
  (db.books.lookup book_id)

/-- Replace a book row in the store. -/
def Db.put_book (db : Db) (b : Book) : Db :=
  { db with books := db.books.map (fun p => if p.1 = b.id then (p.1, b) else p) }

/-- BookStateManager.transition_status (core/state_manager.py, lines
231-324), as a function of the store.  `Except.error` stands for an
exception propagating to the caller; the body wraps everything in
try/except and turns every exception into a `false` return with the
transaction rolled back, so no input ever produces `Except.error`.
The post-commit call to `_schedule_next_stage_if_needed` (skipped when
the target value ends in "_queued") catches its own errors internally
and does not change the returned value or the item row written here,
so it is not modelled further. -/
def transition_status (db : Db) (book_id : Nat) (to_status : BookStatus)
    (change_reason : String) (error_message : Option String)
    (processing_time : Option ℚ) (retry_count : Nat) (now : Nat) :
    Except String (Bool × Db) :=
  -- outer try/except: a raising store rolls back and yields (false, db)
  if db.get_raises then .ok (false, db)
  else
    match db.get_book book_id with
    | none => .ok (false, db)
    | some book =>
      if ¬ is_valid_transition book.status to_status then .ok (false, db)
      else
        let book2 : Book :=
          { book with
            status := to_status
            updated_at := now
            error_message :=
              match error_message with
              | some e => some e
              | none => book.error_message }
        let hist : HistoryEntry :=
          { book_id := book_id
            old_status := some book.status
            new_status := to_status
            change_reason := change_reason
            error_message := error_message
            processing_time := processing_time
            retry_count := retry_count }
        let db2 := (db.put_book book2)
        .ok (true, { db2 with history := db2.history ++ [hist] })

/-- BookStateManager.rollback_download_tasks_when_limit_exhausted
(core/state_manager.py, lines 1006-1070), action on one book row: books
in a download-family status are written back to SEARCH_COMPLETE directly
in the session, bypassing is_valid_transition. -/
def rollback_book (b : Book) (reason : String) (now : Nat) : Book :=
  if b.status = DOWNLOAD_QUEUED ∨ b.status = DOWNLOAD_ACTIVE ∨
      b.status = DOWNLOAD_FAILED then
    { b with status := SEARCH_COMPLETE, updated_at := now, error_message := some reason }
  else b

/-- Claim C1 (corrected): DOWNLOAD_QUEUED → SEARCH_COMPLETE and
DOWNLOAD_ACTIVE → SEARCH_COMPLETE are valid edges and COMPLETED and
SKIPPED_EXISTS are strictly terminal, but is_valid_transition returns
false for DOWNLOAD_FAILED → SEARCH_COMPLETE: the quota rollback helper
moves DOWNLOAD_FAILED books to SEARCH_COMPLETE by writing the row
directly, bypassing edge validation. -/
theorem C1_transition_edges :
    is_valid_transition DOWNLOAD_QUEUED SEARCH_COMPLETE = true ∧
    is_valid_transition DOWNLOAD_ACTIVE SEARCH_COMPLETE = true ∧
    is_valid_transition DOWNLOAD_FAILED SEARCH_COMPLETE = false ∧
    (∀ t : BookStatus, is_valid_transition COMPLETED t = false) ∧
    (∀ t : BookStatus, is_valid_transition SKIPPED_EXISTS t = false) ∧
    (∀ b : Book, ∀ r : String, ∀ n : Nat,
      b.status = DOWNLOAD_FAILED → (rollback_book b r n).status = SEARCH_COMPLETE) := by
  refine ⟨rfl, rfl, rfl, ?_, ?_, ?_⟩
  · intro t; cases t <;> rfl
  · intro t; cases t <;> rfl
  · intro b r n h
    simp [rollback_book, h]

/-- Witness for C1: the rollback clause applied at a concrete book. -/
theorem C1_transition_edges_witness :
    (rollback_book ⟨7, DOWNLOAD_FAILED, 0, none⟩ "quota" 5).status = SEARCH_COMPLETE :=
  C1_transition_edges.2.2.2.2.2 ⟨7, DOWNLOAD_FAILED, 0, none⟩ "quota" 5 rfl

/-- Counterexample for C1 as stated: the state manager's validity
relation rejects the edge DOWNLOAD_FAILED → SEARCH_COMPLETE, which the
claim asserts to be a valid edge. -/
theorem C1_counterexample :
    is_valid_transition DOWNLOAD_FAILED SEARCH_COMPLETE = false := by
  rfl

/-- Claim C3 (corrected): for every item id and target state, a
transition request over an invalid edge returns false and does not
raise; and a store error during the transition is likewise caught by
the surrounding try/except and converted into a false return with the
transaction rolled back — it is not propagated to the caller.
transition_status never returns an exception. -/
theorem C3_transition_failure_modes (db : Db) (book_id : Nat)
    (to_status : BookStatus) (cr : String) (em : Option String)
    (pt : Option ℚ) (rc now : Nat) :
    (∀ e, transition_status db book_id to_status cr em pt rc now ≠ .error e) ∧
    (∀ b, db.get_book book_id = some b →
      is_valid_transition b.status to_status = false →
      transition_status db book_id to_status cr em pt rc now = .ok (false, db)) ∧
    (db.get_raises = true →
      transition_status db book_id to_status cr em pt rc now = .ok (false, db)) := by
  refine ⟨?_, ?_, ?_⟩
  · intro e
    unfold transition_status
    by_cases hr : db.get_raises
    · simp [hr]
    · simp only [hr, Bool.false_eq_true, if_false]
      cases hb : db.get_book book_id with
      | none => simp
      | some b =>
        by_cases hv : is_valid_transition b.status to_status
        · simp [hv]
        · simp [hv]
  · intro b hb hv
    unfold transition_status
    by_cases hr : db.get_raises
    · simp [hr]
    · simp [hr, hb, hv]
  · intro hr
    unfold transition_status
    simp [hr]

/-- Witness for C3 at a concrete store: store raising, and an invalid
edge (COMPLETED → NEW) on a non-raising store. -/
theorem C3_transition_failure_modes_witness :
    (transition_status ⟨[(1, ⟨1, SEARCH_COMPLETE, 0, none⟩)], [], true⟩
        1 DOWNLOAD_QUEUED "r" none none 0 9 =
      .ok (false, ⟨[(1, ⟨1, SEARCH_COMPLETE, 0, none⟩)], [], true⟩)) ∧
    (transition_status ⟨[(2, ⟨2, COMPLETED, 0, none⟩)], [], false⟩
        2 NEW "r" none none 0 9 =
      .ok (false, ⟨[(2, ⟨2, COMPLETED, 0, none⟩)], [], false⟩)) :=
  ⟨(C3_transition_failure_modes ⟨[(1, ⟨1, SEARCH_COMPLETE, 0, none⟩)], [], true⟩
      1 DOWNLOAD_QUEUED "r" none none 0 9).2.2 rfl,
   (C3_transition_failure_modes ⟨[(2, ⟨2, COMPLETED, 0, none⟩)], [], false⟩
      2 NEW "r" none none 0 9).2.1 ⟨2, COMPLETED, 0, none⟩ rfl rfl⟩

/-- Counterexample for C3 as stated: a store that raises during the
transition yields a false return, not a propagated exception — the
claim asserts store errors reach the caller as an exception. -/
theorem C3_counterexample :
    transition_status ⟨[(1, ⟨1, SEARCH_COMPLETE, 0, none⟩)], [], true⟩
        1 DOWNLOAD_QUEUED "r" none none 0 9 =
      .ok (false, ⟨[(1, ⟨1, SEARCH_COMPLETE, 0, none⟩)], [], true⟩) := by
  rfl

/-- Python substring test (`pat in hay`) on character lists. -/
def listContainsSub (pat : List Char) : List Char → Bool
  | [] => pat.isEmpty
  | c :: t => pat.isPrefixOf (c :: t) || listContainsSub pat t

/-- Python `pat in s` on strings. -/
def py_in (pat s : String) : Bool :=
  listContainsSub pat.toList s.toList

/-- Python str.lower(), character-wise (ASCII case mapping; the
classifier's keywords and the messages compared concretely are ASCII
or CJK, where this agrees with Python). -/
def py_lower (s : String) : String :=
  String.mk (s.data.map Char.toLower)

/-- core/error_handler.py, ErrorSeverity. -/
inductive ErrorSeverity
  | LOW
  | MEDIUM
  | HIGH
  | CRITICAL
deriving DecidableEq, Repr

/-- core/error_handler.py, RetryStrategy. -/
inductive RetryStrategy
  | IMMEDIATE
  | EXPONENTIAL_BACKOFF
  | FIXED_DELAY
  | NO_RETRY
deriving DecidableEq, Repr

/-- core/error_handler.py, ErrorInfo dataclass, with its field defaults. -/
structure ErrorInfo where
  error_type : String
  error_message : String
  severity : ErrorSeverity
  retry_strategy : RetryStrategy
  max_retries : Nat := 3
  base_delay_seconds : Nat := 30
  retryable : Bool := true
  requires_human_intervention : Bool := false
deriving DecidableEq, Repr

/-- The engine's typed exceptions (core/pipeline.py) plus a generic
constructor for every other Python exception.  ProcessingError carries
its error_type and retryable attributes; the typed subclasses fix
those attributes in their constructors and are modelled as their own
constructors because classify_error dispatches on isinstance. -/
inductive PyExc
  | downloadLimitExhausted (message : String) (reset_time : Option String)
  | networkError (message : String)
  | authError (message : String)
  | resourceNotFoundError (message : String)
  | processingError (message : String) (error_type : String) (retryable : Bool)
  | generic (message : String)
deriving DecidableEq, Repr

/-- str(error): the exception's message. -/
def PyExc.message : PyExc → String
  | .downloadLimitExhausted m _ => m
  | .networkError m => m
  | .authError m => m
  | .resourceNotFoundError m => m
  | .processingError m _ _ => m
  | .generic m => m

/-- ErrorClassifier.ERROR_PATTERNS (core/error_handler.py, lines 57-188),
in the dict's insertion order; unset dataclass fields take the defaults
max_retries 3, base_delay_seconds 30, retryable true, human false. -/
def ERROR_PATTERNS : List (String × ErrorInfo) :=
  [("timeout",
      ⟨"network_timeout", "网络超时", .LOW, .EXPONENTIAL_BACKOFF, 5, 30, true, false⟩),
   ("connection",
      ⟨"network_connection", "网络连接失败", .MEDIUM, .EXPONENTIAL_BACKOFF, 3, 60, true, false⟩),
   ("dns",
      ⟨"network_dns", "DNS解析失败", .MEDIUM, .FIXED_DELAY, 3, 300, true, false⟩),
   ("login",
      ⟨"auth_login", "登录失败", .HIGH, .NO_RETRY, 3, 30, false, true⟩),
   ("unauthorized",
      ⟨"auth_unauthorized", "认证失败", .HIGH, .NO_RETRY, 3, 30, false, true⟩),
   ("403",
      ⟨"auth_forbidden", "访问被禁止", .HIGH, .FIXED_DELAY, 2, 3600, true, true⟩),
   ("404",
      ⟨"resource_not_found", "资源未找到", .LOW, .NO_RETRY, 3, 30, false, false⟩),
   ("not found",
      ⟨"resource_not_found", "资源未找到", .LOW, .NO_RETRY, 3, 30, false, false⟩),
   ("disk space",
      ⟨"system_disk_space", "磁盘空间不足", .CRITICAL, .NO_RETRY, 3, 30, false, true⟩),
   ("permission",
      ⟨"system_permission", "权限不足", .HIGH, .NO_RETRY, 3, 30, false, true⟩),
   ("data_missing",
      ⟨"data_missing", "数据缺失", .MEDIUM, .NO_RETRY, 3, 30, false, false⟩),
   ("data_invalid",
      ⟨"data_invalid", "数据无效", .MEDIUM, .NO_RETRY, 3, 30, false, false⟩),
   ("download_limit",
      ⟨"download_limit_exhausted", "下载次数用完", .MEDIUM, .NO_RETRY, 3, 30, false, true⟩),
   ("quota_exhausted",
      ⟨"quota_exhausted", "下载配额已耗尽", .LOW, .NO_RETRY, 3, 30, false, false⟩),
   ("quota_check_failed",
      ⟨"quota_check_failed", "配额检查失败", .MEDIUM, .EXPONENTIAL_BACKOFF, 3, 60, true, false⟩)]

/-- ErrorClassifier._get_default_error_info. -/
def default_error_info : ErrorInfo :=
  ⟨"unknown", "未知错误", .MEDIUM, .EXPONENTIAL_BACKOFF, 2, 60, true, false⟩

/-- ERROR_PATTERNS.get(k) on the ordered table. -/
def pattern_get (k : String) : Option ErrorInfo :=
  ERROR_PATTERNS.lookup k

/-- ErrorClassifier._match_error_pattern: the first table key contained
in the lowercased message, else "unknown". -/
def match_error_key (msg : String) : List (String × ErrorInfo) → String
  | [] => "unknown"
  | (k, _) :: rest => if py_in k msg then k else match_error_key msg rest

/-- ErrorClassifier._get_network_error_info. -/
def get_network_error_info (msg : String) : ErrorInfo :=
  if py_in "timeout" msg then (pattern_get "timeout").getD default_error_info
  else if py_in "connection" msg then (pattern_get "connection").getD default_error_info
  else if py_in "dns" msg then (pattern_get "dns").getD default_error_info
  else ⟨"network_unknown", "网络错误", .MEDIUM, .EXPONENTIAL_BACKOFF, 3, 30, true, false⟩

/-- ErrorClassifier._get_auth_error_info. -/
def get_auth_error_info (msg : String) : ErrorInfo :=
  if py_in "403" msg then (pattern_get "403").getD default_error_info
  else if py_in "login" msg then (pattern_get "login").getD default_error_info
  else (pattern_get "unauthorized").getD default_error_info

/-- ErrorClassifier.classify_error (core/error_handler.py, lines
190-231): typed dispatch first, then keyword match on the lowercased
message, then the default.  The `.getD default_error_info` on the typed
rows models Python's direct dict indexing, whose keys are present. -/
def classify_error (e : PyExc) : ErrorInfo :=
  let msg := py_lower e.message
  match e with
  | .downloadLimitExhausted _ _ => (pattern_get "download_limit").getD default_error_info
  | .networkError _ => get_network_error_info msg
  | .authError _ => get_auth_error_info msg
  | .resourceNotFoundError _ => (pattern_get "not found").getD default_error_info
  | .processingError _ et _ => (pattern_get et).getD default_error_info
  | .generic _ => (pattern_get (match_error_key msg ERROR_PATTERNS)).getD default_error_info

theorem match_error_key_of_mem (msg : String) :
    ∀ l : List (String × ErrorInfo),
      (∃ k ∈ l.map Prod.fst, py_in k msg = true) →
      py_in (match_error_key msg l) msg = true ∧
        match_error_key msg l ∈ l.map Prod.fst := by
  intro l
  induction l with
  | nil => rintro ⟨k, hk, _⟩; simp at hk
  | cons p rest ih =>
    rintro ⟨k, hk, hin⟩
    by_cases hp : py_in p.1 msg = true
    · simp [match_error_key, hp]
    · have hkrest : k ∈ rest.map Prod.fst := by
        rcases List.mem_cons.mp hk with h | h
        · exact absurd (h ▸ hin) hp
        · exact h
      have := ih ⟨k, hkrest, hin⟩
      simp only [match_error_key, hp, if_false]
      exact ⟨this.1, List.mem_cons_of_mem _ this.2⟩

theorem match_error_key_of_none (msg : String) :
    ∀ l : List (String × ErrorInfo),
      (∀ k ∈ l.map Prod.fst, py_in k msg = false) →
      match_error_key msg l = "unknown" := by
  intro l
  induction l with
  | nil => intro _; rfl
  | cons p rest ih =>
    intro h
    have hp : py_in p.1 msg = false := h p.1 (by simp)
    simp only [match_error_key, hp, Bool.false_eq_true, if_false]
    exact ih (fun k hk => h k (List.mem_cons_of_mem _ hk))

theorem lookup_of_mem_keys (k : String) :
    ∀ l : List (String × ErrorInfo), k ∈ l.map Prod.fst →
      ∃ info, l.lookup k = some info ∧ (k, info) ∈ l := by
  intro l
  induction l with
  | nil => intro h; simp at h
  | cons p rest ih =>
    obtain ⟨pk, pv⟩ := p
    intro h
    by_cases hk : k = pk
    · refine ⟨pv, ?_, ?_⟩
      · simp [List.lookup, hk]
      · subst hk; simp
    · rcases List.mem_cons.mp h with h1 | h1
      · exact absurd h1 hk
      · obtain ⟨info, hl, hm⟩ := ih h1
        refine ⟨info, ?_, List.mem_cons_of_mem _ hm⟩
        have hbeq : (k == pk) = false := beq_eq_false_iff_ne.mpr hk
        simp [List.lookup, hbeq, hl]

/-- Claim C7 (confirmed): for an exception matching no typed mapping, a
lowercased message containing the keyword "timeout" classifies exactly
to the table row (network_timeout, low, exponential backoff, 5 retries,
30-second base, no human intervention); a message containing any table
keyword classifies to the table row of a contained keyword (the first
match in the table's order); and a message containing no keyword gets
the default: medium severity, exponential backoff, 2 retries,
60-second base. -/
theorem C7_error_classifier (m : String) :
    (py_in "timeout" (py_lower m) = true →
      classify_error (.generic m) =
        ⟨"network_timeout", "网络超时", .LOW, .EXPONENTIAL_BACKOFF, 5, 30, true, false⟩) ∧
    ((∃ k ∈ ERROR_PATTERNS.map Prod.fst, py_in k (py_lower m) = true) →
      ∃ k2, (k2, classify_error (.generic m)) ∈ ERROR_PATTERNS ∧
        py_in k2 (py_lower m) = true) ∧
    ((∀ k ∈ ERROR_PATTERNS.map Prod.fst, py_in k (py_lower m) = false) →
      classify_error (.generic m) = default_error_info) := by
  refine ⟨?_, ?_, ?_⟩
  · intro h
    show (pattern_get (match_error_key (py_lower m) ERROR_PATTERNS)).getD default_error_info = _
    rw [show match_error_key (py_lower m) ERROR_PATTERNS = "timeout" by
      simp [ERROR_PATTERNS, match_error_key, h]]
    rfl
  · intro h
    obtain ⟨hc, hmem⟩ := match_error_key_of_mem (py_lower m) ERROR_PATTERNS h
    obtain ⟨info, hl, hm⟩ := lookup_of_mem_keys _ ERROR_PATTERNS hmem
    refine ⟨match_error_key (py_lower m) ERROR_PATTERNS, ?_, hc⟩
    show (match_error_key (py_lower m) ERROR_PATTERNS,
      (pattern_get (match_error_key (py_lower m) ERROR_PATTERNS)).getD default_error_info) ∈ _
    rw [show pattern_get (match_error_key (py_lower m) ERROR_PATTERNS) = some info from hl]
    exact hm
  · intro h
    show (pattern_get (match_error_key (py_lower m) ERROR_PATTERNS)).getD default_error_info = _
    rw [match_error_key_of_none (py_lower m) ERROR_PATTERNS h]
    rfl

/-- Witness for C7: a timeout message hits the timeout row and a
keyword-free message falls to the default. -/
theorem C7_error_classifier_witness :
    classify_error (.generic "Read timeout after 30s") =
      ⟨"network_timeout", "网络超时", .LOW, .EXPONENTIAL_BACKOFF, 5, 30, true, false⟩ ∧
    classify_error (.generic "mysterious failure") = default_error_info :=
  ⟨(C7_error_classifier "Read timeout after 30s").1 (by decide),
   (C7_error_classifier "mysterious failure").2.2 (by decide)⟩

/-- core/task_scheduler.py, TaskStatus. -/
inductive TaskStatus
  | QUEUED
  | ACTIVE
  | COMPLETED
  | FAILED
  | SKIPPED
  | CANCELLED
deriving DecidableEq, Repr

/-- One durable processing_tasks row (db/models.py, ProcessingTask),
with the columns the scheduler touches or the claims mention.  Times
are abstract naturals; `task_data` is kept as an opaque blob. -/
structure ProcessingTaskRow where
  id : Nat
  book_id : Nat
  stage : String
  status : TaskStatus
  priority : Int
  retry_count : Nat
  max_retries : Nat
  error_message : Option String
  task_data : Option String
  started_at : Option Nat
  completed_at : Option Nat
  created_at : Nat
  updated_at : Nat
deriving DecidableEq, Repr

/-- core/task_scheduler.py, ScheduledTask dataclass (the in-memory
scheduler entry). -/
structure ScheduledTask where
  id : Nat
  book_id : Nat
  stage : String
  priority : Int
  created_at : Nat
  retry_count : Nat
  max_retries : Nat
  next_run_time : Nat
  task_data : Option String
deriving DecidableEq, Repr

/-- The row update performed by TaskScheduler._update_task_status
(core/task_scheduler.py, lines 478-508) once the row is found: set
status and updated_at, stamp started_at on ACTIVE, stamp completed_at
on COMPLETED/FAILED/CANCELLED, and overwrite error_message only when a
non-empty message is supplied. -/
def apply_status_update (r : ProcessingTaskRow) (status : TaskStatus)
    (error_message : String) (now : Nat) : ProcessingTaskRow :=
  { r with
    status := status
    updated_at := now
    started_at := if status = .ACTIVE then some now else r.started_at
    completed_at :=
      if status = .COMPLETED ∨ status = .FAILED ∨ status = .CANCELLED then
        some now
      else r.completed_at
    error_message := if error_message ≠ "" then some error_message else r.error_message }

/-- TaskScheduler._update_task_status over the task table: the row with
the given id is updated, every other row is untouched; a missing id is
a no-op. -/
def update_task_status (tasks : List (Nat × ProcessingTaskRow)) (task_id : Nat)
    (status : TaskStatus) (error_message : String) (now : Nat) :
    List (Nat × ProcessingTaskRow) :=
  tasks.map (fun p =>
    if p.1 = task_id then (p.1, apply_status_update p.2 status error_message now) else p)

/-- The durable row created by TaskScheduler.schedule_task
(core/task_scheduler.py, lines 159-170): status queued, and
retry_count left at the column default 0 (db/models.py, ProcessingTask). -/
def new_processing_task (id book_id : Nat) (stage : String) (priority : Int)
    (max_retries : Nat) (task_data : Option String) (now : Nat) :
    ProcessingTaskRow :=
  { id := id
    book_id := book_id
    stage := stage
    status := .QUEUED
    priority := priority
    retry_count := 0
    max_retries := max_retries
    error_message := none
    task_data := task_data
    started_at := none
    completed_at := none
    created_at := now
    updated_at := now }

/-- The failed-row filter of TaskScheduler._cleanup_database_tasks
(core/task_scheduler.py, lines 537-541): failed, stale, and with its
stored retry_count at or beyond max_retries. -/
def cleanup_failed_cond (r : ProcessingTaskRow) (cutoff : Nat) : Bool :=
  r.status = .FAILED && decide (r.updated_at < cutoff) && decide (r.max_retries ≤ r.retry_count)

/-- The scheduler's mutable state together with the durable rows it can
reach: the in-memory queue (the heap, as a list), the task table, and
the item/history tables, which the failure-handling code never touches. -/
structure SchedulerSt where
  task_queue : List ScheduledTask
  tasks : List (Nat × ProcessingTaskRow)
  books : List (Nat × Book)
  history : List HistoryEntry
  stats_failed : Nat
  stats_retries : Nat
deriving DecidableEq, Repr

/-- TaskScheduler._pause_download_tasks (core/task_scheduler.py, lines
716-745): remove every download-stage task from the queue and mark its
row cancelled. -/
def pause_download_tasks (st : SchedulerSt) (now : Nat) : SchedulerSt :=
  let dl := st.task_queue.filter (fun t => t.stage = "download")
  { st with
    task_queue := st.task_queue.filter (fun t => ¬ t.stage = "download")
    tasks := dl.foldl
      (fun ts t => update_task_status ts t.id .CANCELLED "下载次数不足，任务已暂停" now)
      st.tasks }

/-- Is the exception a DownloadLimitExhaustedError? -/
def PyExc.isDownloadLimit : PyExc → Bool
  | .downloadLimitExhausted _ _ => true
  | _ => false

/-- The status-mismatch test of TaskScheduler._handle_task_failure
(core/task_scheduler.py, lines 433-437), on the raw error message. -/
def is_status_mismatch_message (em : String) : Bool :=
  py_in "status_mismatch" em ||
    (py_in "状态" em &&
      (py_in "SEARCH_QUEUED" em || py_in "DOWNLOAD_QUEUED" em || py_in "UPLOAD_QUEUED" em))

/-- The retry/final-failure tail of TaskScheduler._handle_task_failure
(core/task_scheduler.py, lines 428-476): increment the in-memory retry
counter; within budget, pick a short delay for early status-mismatch
retries or capped exponential backoff otherwise, push the task back on
the queue and mirror the row to queued; over budget, mirror the row to
failed. -/
def handle_failure_retry (st : SchedulerSt) (task : ScheduledTask)
    (error_message : String) (now : Nat) : SchedulerSt :=
  let rc := task.retry_count + 1
  let st1 := { st with stats_retries := st.stats_retries + 1 }
  if rc ≤ task.max_retries then
    let delay : Nat :=
      if is_status_mismatch_message error_message && rc ≤ 2 then 5 + rc * 5
      else min 300 (30 * 2 ^ (rc - 1))
    let task2 := { task with retry_count := rc, next_run_time := now + delay }
    { st1 with
      task_queue := st1.task_queue ++ [task2]
      tasks := update_task_status st1.tasks task.id .QUEUED
        ("重试 " ++ toString rc ++ "/" ++ toString task.max_retries ++ ": " ++ error_message)
        now }
  else
    { st1 with
      tasks := update_task_status st1.tasks task.id .FAILED error_message now
      stats_failed := st1.stats_failed + 1 }

/-- TaskScheduler._handle_task_failure (core/task_scheduler.py, lines
380-476): DownloadLimitExhaustedError fails the task and pauses the
download queue; any other exception classified non-retryable fails the
task; everything else goes through the retry tail. -/
def handle_task_failure (st : SchedulerSt) (task : ScheduledTask)
    (error_message : String) (exc : Option PyExc) (now : Nat) : SchedulerSt :=
  match exc with
  | some e =>
    if e.isDownloadLimit then
      let st1 := { st with
        tasks := update_task_status st.tasks task.id .FAILED
          ("下载次数不足，已回退状态: " ++ error_message) now
        stats_failed := st.stats_failed + 1 }
      pause_download_tasks st1 now
    else if (classify_error e).retryable = false then
      { st with
        tasks := update_task_status st.tasks task.id .FAILED
          ("非重试性错误: " ++ error_message) now
        stats_failed := st.stats_failed + 1 }
    else handle_failure_retry st task error_message now
  | none => handle_failure_retry st task error_message now

theorem apply_status_update_retry_count (r : ProcessingTaskRow) (s : TaskStatus)
    (em : String) (now : Nat) :
    (apply_status_update r s em now).retry_count = r.retry_count := rfl

theorem apply_status_update_max_retries (r : ProcessingTaskRow) (s : TaskStatus)
    (em : String) (now : Nat) :
    (apply_status_update r s em now).max_retries = r.max_retries := rfl

/-- The per-row retry-bound invariant on a task table. -/
def rows_retry_bounded (ts : List (Nat × ProcessingTaskRow)) : Prop :=
  ∀ p ∈ ts, p.2.retry_count ≤ p.2.max_retries

theorem update_task_status_retry_bounded (ts : List (Nat × ProcessingTaskRow))
    (task_id : Nat) (s : TaskStatus) (em : String) (now : Nat)
    (h : rows_retry_bounded ts) :
    rows_retry_bounded (update_task_status ts task_id s em now) := by
  intro p hp
  rw [update_task_status] at hp
  obtain ⟨q, hq, hfq⟩ := List.mem_map.mp hp
  by_cases h1 : q.1 = task_id
  · rw [← hfq]
    simpa [h1, apply_status_update_retry_count, apply_status_update_max_retries] using h q hq
  · rw [← hfq]
    simpa [h1] using h q hq

theorem foldl_cancel_retry_bounded (msg : String) (now : Nat) :
    ∀ (dl : List ScheduledTask) (ts : List (Nat × ProcessingTaskRow)),
      rows_retry_bounded ts →
      rows_retry_bounded
        (dl.foldl (fun acc t => update_task_status acc t.id .CANCELLED msg now) ts) := by
  intro dl
  induction dl with
  | nil => intro ts h; exact h
  | cons t rest ih =>
    intro ts h
    exact ih _ (update_task_status_retry_bounded ts t.id .CANCELLED msg now h)

theorem handle_task_failure_retry_bounded (st : SchedulerSt) (task : ScheduledTask)
    (em : String) (exc : Option PyExc) (now : Nat)
    (h : rows_retry_bounded st.tasks) :
    rows_retry_bounded (handle_task_failure st task em exc now).tasks := by
  have hretry : rows_retry_bounded (handle_failure_retry st task em now).tasks := by
    unfold handle_failure_retry
    by_cases hb : task.retry_count + 1 ≤ task.max_retries
    · simp only [hb, if_true]
      exact update_task_status_retry_bounded _ _ _ _ _ h
    · simp only [hb, if_false]
      exact update_task_status_retry_bounded _ _ _ _ _ h
  unfold handle_task_failure
  cases exc with
  | none => exact hretry
  | some e =>
    by_cases hdl : e.isDownloadLimit
    · simp only [hdl, if_true]
      exact foldl_cancel_retry_bounded _ _ _ _
        (update_task_status_retry_bounded _ _ _ _ _ h)
    · by_cases hr : (classify_error e).retryable = false
      · simp only [hdl, hr, if_false, if_true]
        exact update_task_status_retry_bounded _ _ _ _ _ h
      · simp only [hdl, hr, if_false]
        exact hretry

/-- One failure event fed to the scheduler: the in-memory task, the
error message, the optional exception and the wall-clock time. -/
def failure_step (st : SchedulerSt)
    (e : ScheduledTask × String × Option PyExc × Nat) : SchedulerSt :=
  handle_task_failure st e.1 e.2.1 e.2.2.1 e.2.2.2

/-- Claim C6 (confirmed): the scheduler mirrors task outcomes to the
durable rows through _update_task_status, which never writes
retry_count; hence along any sequence of failure handlings, every row
that ends with status failed still satisfies retry_count ≤ max_retries,
provided the rows satisfied the bound initially (rows created by
schedule_task start at the column default retry_count = 0). -/
theorem C6_retry_bound (st0 : SchedulerSt)
    (events : List (ScheduledTask × String × Option PyExc × Nat))
    (h0 : rows_retry_bounded st0.tasks) :
    ∀ p ∈ (events.foldl failure_step st0).tasks,
      p.2.status = .FAILED → p.2.retry_count ≤ p.2.max_retries := by
  have hinv : rows_retry_bounded (events.foldl failure_step st0).tasks := by
    induction events generalizing st0 with
    | nil => exact h0
    | cons e rest ih =>
      exact ih (failure_step st0 e)
        (handle_task_failure_retry_bounded st0 e.1 e.2.1 e.2.2.1 e.2.2.2 h0)
  intro p hp _
  exact hinv p hp

/-- Witness for C6: a freshly scheduled search task whose handler hits
a non-retryable auth error; the durable row ends failed with
retry_count 0 ≤ max_retries 3. -/
theorem C6_retry_bound_witness :
    ((1, apply_status_update (new_processing_task 1 1 "search" 5 3 none 0)
        .FAILED ("非重试性错误: " ++ "x") 9) : Nat × ProcessingTaskRow).2.retry_count ≤
      ((1, apply_status_update (new_processing_task 1 1 "search" 5 3 none 0)
        .FAILED ("非重试性错误: " ++ "x") 9) : Nat × ProcessingTaskRow).2.max_retries :=
  C6_retry_bound
    ⟨[], [(1, new_processing_task 1 1 "search" 5 3 none 0)], [], [], 0, 0⟩
    [(⟨1, 1, "search", 5, 0, 0, 3, 0, none⟩, "x", some (.authError "x"), 9)]
    (by unfold rows_retry_bounded; decide)
    (1, apply_status_update (new_processing_task 1 1 "search" 5 3 none 0)
      .FAILED ("非重试性错误: " ++ "x") 9)
    (by decide) (by decide)

/-- Sequential application of row status updates. -/
def apply_status_updates (r : ProcessingTaskRow)
    (ups : List (TaskStatus × String × Nat)) : ProcessingTaskRow :=
  ups.foldl (fun acc u => apply_status_update acc u.1 u.2.1 u.2.2) r

theorem apply_status_updates_frame (r : ProcessingTaskRow) :
    ∀ ups : List (TaskStatus × String × Nat),
      (apply_status_updates r ups).retry_count = r.retry_count ∧
        (apply_status_updates r ups).max_retries = r.max_retries := by
  intro ups
  induction ups generalizing r with
  | nil => exact ⟨rfl, rfl⟩
  | cons u rest ih =>
    have := ih (apply_status_update r u.1 u.2.1 u.2.2)
    simpa [apply_status_updates, apply_status_update_retry_count,
      apply_status_update_max_retries] using this

/-- Claim C10 (confirmed): the scheduler's status mirror changes only
status, updated_at, started_at, completed_at and error_message; every
other column of the durable task row — id, book_id, stage, priority,
retry_count, max_retries, task_data, created_at — is unchanged by every
status update, so the durable retry_count never reflects the in-memory
retry counter, and the failed-task garbage-collection condition
retry_count ≥ max_retries can hold only through the row's initial value. -/
theorem C10_status_mirror_frame (r : ProcessingTaskRow) (s : TaskStatus)
    (em : String) (now : Nat) :
    ((apply_status_update r s em now).retry_count = r.retry_count ∧
      (apply_status_update r s em now).id = r.id ∧
      (apply_status_update r s em now).book_id = r.book_id ∧
      (apply_status_update r s em now).stage = r.stage ∧
      (apply_status_update r s em now).priority = r.priority ∧
      (apply_status_update r s em now).max_retries = r.max_retries ∧
      (apply_status_update r s em now).task_data = r.task_data ∧
      (apply_status_update r s em now).created_at = r.created_at ∧
      (apply_status_update r s em now).status = s) ∧
    (∀ ups : List (TaskStatus × String × Nat),
      (apply_status_updates r ups).retry_count = r.retry_count) ∧
    (∀ ups : List (TaskStatus × String × Nat), ∀ cutoff : Nat,
      cleanup_failed_cond (apply_status_updates r ups) cutoff = true →
        r.max_retries ≤ r.retry_count) := by
  refine ⟨⟨rfl, rfl, rfl, rfl, rfl, rfl, rfl, rfl, rfl⟩, ?_, ?_⟩
  · intro ups
    exact (apply_status_updates_frame r ups).1
  · intro ups cutoff hc
    have h1 := (apply_status_updates_frame r ups).1
    have h2 := (apply_status_updates_frame r ups).2
    unfold cleanup_failed_cond at hc
    simp only [Bool.and_eq_true, decide_eq_true_eq] at hc
    rw [h1, h2] at hc
    exact hc.2

/-- Witness for C10: a row born with retry_count 3 = max_retries 3
stays eligible for failed-row GC after being mirrored to failed. -/
theorem C10_status_mirror_frame_witness :
    (⟨2, 9, "download", .QUEUED, 5, 3, 3, none, none, none, none, 0, 0⟩ :
        ProcessingTaskRow).max_retries ≤
      (⟨2, 9, "download", .QUEUED, 5, 3, 3, none, none, none, none, 0, 0⟩ :
        ProcessingTaskRow).retry_count :=
  (C10_status_mirror_frame
      ⟨2, 9, "download", .QUEUED, 5, 3, 3, none, none, none, none, 0, 0⟩
      .FAILED "boom" 4).2.2 [(.FAILED, "boom", 4)] 10 (by decide)

/-- The per-stage acceptable item states of
TaskScheduler._can_schedule_for_stage (core/task_scheduler.py, lines
680-693), with the dict.get default of the empty set for an unknown
stage. -/
def stage_acceptable_statuses (stage : String) : List BookStatus :=
  if stage = "data_collection" then [NEW, DETAIL_FETCHING]
  else if stage = "search" then [DETAIL_COMPLETE, SEARCH_QUEUED, SEARCH_ACTIVE]
  else if stage = "download" then
    [SEARCH_COMPLETE, SEARCH_COMPLETE_QUOTA_EXHAUSTED, DOWNLOAD_QUEUED, DOWNLOAD_ACTIVE]
  else if stage = "upload" then [DOWNLOAD_COMPLETE, UPLOAD_QUEUED, UPLOAD_ACTIVE]
  else []

/-- TaskScheduler._can_schedule_for_stage (core/task_scheduler.py,
lines 659-714): read the latest item row; a missing item is not
schedulable, otherwise membership of its status in the stage's
acceptable set decides. -/
def can_schedule_for_stage (books : List (Nat × Book)) (book_id : Nat)
    (stage : String) : Bool :=
  match books.lookup book_id with
  | none => false
  | some book => (stage_acceptable_statuses stage).contains book.status

/-- Outcome of the pre-dispatch checks of TaskScheduler._execute_task. -/
inductive DispatchOutcome
  | no_handler
  | cancelled_status_mismatch
  | dispatched
deriving DecidableEq, Repr

/-- The pre-dispatch fragment of TaskScheduler._execute_task
(core/task_scheduler.py, lines 304-340): a task whose stage has no
registered handler is marked failed; a task whose item state no longer
matches the stage's acceptable set is cancelled and its handler never
runs; otherwise the row is marked active and the handler is dispatched
(the in-memory active-task map is bookkeeping outside the claims). -/
def execute_task_predispatch (handlers : List String) (st : SchedulerSt)
    (task : ScheduledTask) (now : Nat) : DispatchOutcome × SchedulerSt :=
  if ¬ handlers.contains task.stage then
    (.no_handler,
      { st with
        tasks := update_task_status st.tasks task.id .FAILED ("未找到处理器: " ++ task.stage) now })
  else if ¬ can_schedule_for_stage st.books task.book_id task.stage then
    (.cancelled_status_mismatch,
      { st with
        tasks := update_task_status st.tasks task.id .CANCELLED "书籍状态不匹配阶段要求" now })
  else
    (.dispatched,
      { st with
        tasks := update_task_status st.tasks task.id .ACTIVE "" now })

theorem handle_task_failure_frame (st : SchedulerSt) (task : ScheduledTask)
    (em : String) (exc : Option PyExc) (now : Nat) :
    (handle_task_failure st task em exc now).books = st.books ∧
    (handle_task_failure st task em exc now).history = st.history := by
  have hretry : (handle_failure_retry st task em now).books = st.books ∧
      (handle_failure_retry st task em now).history = st.history := by
    unfold handle_failure_retry
    by_cases hb : task.retry_count + 1 ≤ task.max_retries <;> simp [hb]
  unfold handle_task_failure
  cases exc with
  | none => exact hretry
  | some e =>
    by_cases hdl : e.isDownloadLimit
    · simp only [hdl, if_true]
      simp [pause_download_tasks]
    · by_cases hr : (classify_error e).retryable = false
      · simp [hdl, hr]
      · simp only [hdl, Bool.false_eq_true, if_false, hr]
        exact hretry

theorem execute_task_predispatch_frame (handlers : List String)
    (st : SchedulerSt) (task : ScheduledTask) (now : Nat) :
    (execute_task_predispatch handlers st task now).2.books = st.books ∧
    (execute_task_predispatch handlers st task now).2.history = st.history := by
  unfold execute_task_predispatch
  split
  · exact ⟨rfl, rfl⟩
  · split
    · exact ⟨rfl, rfl⟩
    · exact ⟨rfl, rfl⟩

/-- Claim C2 (corrected): a status mismatch detected by the scheduler's
pre-dispatch state re-check in _execute_task cancels the task (row
CANCELLED) without running the handler; but a handler failure whose
error message carries the status-mismatch marker is NOT cancelled by
_handle_task_failure: the classifier returns a retryable default for
it, so the task is re-enqueued for retry with the shortened
status-mismatch delay (5 + 5·retry_count seconds, here 10 s for the
first retry) and its row is mirrored to queued.  In both paths the
item's status and history are left unchanged by the scheduler. -/
theorem C2_status_mismatch_requeue (handlers : List String) (st : SchedulerSt)
    (task : ScheduledTask) (em : String) (e : PyExc) (now : Nat) :
    (handlers.contains task.stage = true →
      can_schedule_for_stage st.books task.book_id task.stage = false →
      execute_task_predispatch handlers st task now =
        (.cancelled_status_mismatch,
          { st with
            tasks := update_task_status st.tasks task.id .CANCELLED "书籍状态不匹配阶段要求" now })) ∧
    (e.isDownloadLimit = false →
      (classify_error e).retryable = true →
      py_in "status_mismatch" em = true →
      task.retry_count = 0 →
      1 ≤ task.max_retries →
      handle_task_failure st task em (some e) now =
        { st with
          stats_retries := st.stats_retries + 1
          task_queue :=
            st.task_queue ++ [{ task with retry_count := 1, next_run_time := now + 10 }]
          tasks := update_task_status st.tasks task.id .QUEUED
            ("重试 " ++ toString 1 ++ "/" ++ toString task.max_retries ++ ": " ++ em) now }) ∧
    (execute_task_predispatch handlers st task now).2.books = st.books ∧
    (execute_task_predispatch handlers st task now).2.history = st.history ∧
    (handle_task_failure st task em (some e) now).books = st.books ∧
    (handle_task_failure st task em (some e) now).history = st.history := by
  refine ⟨?_, ?_, (execute_task_predispatch_frame handlers st task now).1,
    (execute_task_predispatch_frame handlers st task now).2,
    (handle_task_failure_frame st task em (some e) now).1,
    (handle_task_failure_frame st task em (some e) now).2⟩
  · intro hh hcs
    unfold execute_task_predispatch
    rw [if_neg (not_not_intro hh), if_pos (by simp [hcs])]
  · intro hdl hretry hmm hrc hmax
    have h1 : handle_task_failure st task em (some e) now =
        handle_failure_retry st task em now := by
      unfold handle_task_failure
      simp [hdl, hretry]
    rw [h1]
    unfold handle_failure_retry
    rw [hrc]
    simp [is_status_mismatch_message, hmm, hmax]

/-- Witness for C2: a COMPLETED item makes the pre-dispatch check
cancel the concrete search task, and the concrete status-mismatch
handler failure leaves the item table untouched. -/
theorem C2_status_mismatch_requeue_witness :
    (execute_task_predispatch ["search"]
        ⟨[], [(1, new_processing_task 1 1 "search" 5 3 none 0)],
          [(1, ⟨1, COMPLETED, 0, none⟩)], [], 0, 0⟩
        ⟨1, 1, "search", 5, 0, 0, 3, 0, none⟩ 100).1 =
      .cancelled_status_mismatch ∧
    (handle_task_failure
        ⟨[], [(1, new_processing_task 1 1 "search" 5 3 none 0)],
          [(1, ⟨1, COMPLETED, 0, none⟩)], [], 0, 0⟩
        ⟨1, 1, "search", 5, 0, 0, 3, 0, none⟩
        "status_mismatch: 状态不匹配"
        (some (.processingError "status_mismatch: 状态不匹配" "status_mismatch" true))
        100).books = [(1, ⟨1, COMPLETED, 0, none⟩)] := by
  have h := C2_status_mismatch_requeue ["search"]
    ⟨[], [(1, new_processing_task 1 1 "search" 5 3 none 0)],
      [(1, ⟨1, COMPLETED, 0, none⟩)], [], 0, 0⟩
    ⟨1, 1, "search", 5, 0, 0, 3, 0, none⟩
    "status_mismatch: 状态不匹配"
    (.processingError "status_mismatch: 状态不匹配" "status_mismatch" true)
    100
  exact ⟨by rw [h.1 (by decide) (by decide)], h.2.2.2.2.1⟩

/-- Counterexample for C2 as stated: after a handler failure carrying
status_mismatch, the task's durable row is queued (not cancelled) and
the task is back on the scheduler queue with retry_count 1 and a
10-second delay. -/
theorem C2_counterexample :
    ((handle_task_failure
        ⟨[], [(1, new_processing_task 1 1 "search" 5 3 none 0)],
          [(1, ⟨1, SEARCH_QUEUED, 0, none⟩)], [], 0, 0⟩
        ⟨1, 1, "search", 5, 0, 0, 3, 0, none⟩
        "status_mismatch: 状态不匹配"
        (some (.processingError "status_mismatch: 状态不匹配" "status_mismatch" true))
        100).tasks.lookup 1).map ProcessingTaskRow.status = some .QUEUED ∧
    (handle_task_failure
        ⟨[], [(1, new_processing_task 1 1 "search" 5 3 none 0)],
          [(1, ⟨1, SEARCH_QUEUED, 0, none⟩)], [], 0, 0⟩
        ⟨1, 1, "search", 5, 0, 0, 3, 0, none⟩
        "status_mismatch: 状态不匹配"
        (some (.processingError "status_mismatch: 状态不匹配" "status_mismatch" true))
        100).task_queue = [⟨1, 1, "search", 5, 0, 1, 3, 110, none⟩] := by
  decide

/-- core/quota_manager.py, DownloadQuota dataclass. -/
structure DownloadQuota where
  remaining_downloads : Int
  daily_limit : Int := 10
  last_checked : Option Nat := none
  next_reset : Option Nat := none
deriving DecidableEq, Repr

/-- DownloadQuota.has_quota_available. -/
def DownloadQuota.has_quota_available (q : DownloadQuota) : Bool :=
  0 < q.remaining_downloads

/-- The QuotaManager's mutable cache (core/quota_manager.py). -/
structure QuotaManagerSt where
  cached_quota : Option DownloadQuota
deriving DecidableEq, Repr

/-- QuotaManager.has_quota_available (core/quota_manager.py, lines
117-135): empty cache reports false; an expired cache is noted but the
cached value is still returned, so the TTL has no effect here. -/
def qm_has_quota_available (m : QuotaManagerSt) : Bool :=
  match m.cached_quota with
  | none => false
  | some q => q.has_quota_available

/-- QuotaManager.consume_quota (core/quota_manager.py, lines 137-157). -/
def qm_consume_quota (m : QuotaManagerSt) (count : Int) : Bool × QuotaManagerSt :=
  match m.cached_quota with
  | none => (false, m)
  | some q =>
    if count ≤ q.remaining_downloads then
      (true, ⟨some { q with remaining_downloads := q.remaining_downloads - count }⟩)
    else (false, m)

/-- QuotaManager.reset_cache. -/
def qm_reset_cache (_ : QuotaManagerSt) : QuotaManagerSt := ⟨none⟩

/-- The cache replacement performed by the get_current_quota refresh
path (core/quota_manager.py, lines 86-112). -/
def qm_refresh (remaining daily_limit : Int) (now : Nat) : QuotaManagerSt :=
  ⟨some ⟨remaining, daily_limit, some now, none⟩⟩

/-- The quota manager's cache-mutating operations. -/
inductive QuotaOp
  | refresh (remaining daily_limit : Int) (now : Nat)
  | consume (count : Int)
  | reset
deriving DecidableEq, Repr

/-- One quota operation acting on the cache. -/
def quota_step (m : QuotaManagerSt) : QuotaOp → QuotaManagerSt
  | .refresh r d n => qm_refresh r d n
  | .consume c => (qm_consume_quota m c).2
  | .reset => qm_reset_cache m

/-- The cached remaining count is non-negative (vacuous on an empty cache). -/
def quota_nonneg (m : QuotaManagerSt) : Bool :=
  match m.cached_quota with
  | none => true
  | some q => 0 ≤ q.remaining_downloads

/-- A refresh operation delivers a non-negative remote value. -/
def op_refresh_nonneg : QuotaOp → Bool
  | .refresh r _ _ => 0 ≤ r
  | _ => true

theorem quota_step_nonneg (m : QuotaManagerSt) (op : QuotaOp)
    (h : quota_nonneg m = true) (hop : op_refresh_nonneg op = true) :
    quota_nonneg (quota_step m op) = true := by
  cases op with
  | refresh r d n =>
    simp only [op_refresh_nonneg, decide_eq_true_eq] at hop
    simp [quota_step, qm_refresh, quota_nonneg, hop]
  | reset => simp [quota_step, qm_reset_cache, quota_nonneg]
  | consume c =>
    cases hm : m.cached_quota with
    | none => simpa [quota_step, qm_consume_quota, hm] using h
    | some q =>
      by_cases hc : c ≤ q.remaining_downloads
      · simp [quota_step, qm_consume_quota, hm, hc, quota_nonneg]
      · simpa [quota_step, qm_consume_quota, hm, hc] using h

/-- Claim C8 (confirmed): has_quota_available is false on an empty
cache; consume_quota succeeds exactly when a cached quota exists with
remaining ≥ n, decrementing the cache by n, and otherwise fails leaving
the cache unchanged; and the cached remaining count stays non-negative
under every sequence of quota operations whose refreshed values are
non-negative. -/
theorem C8_quota_manager (m : QuotaManagerSt) (q : DownloadQuota) (n : Int)
    (ops : List QuotaOp)
    (hm : quota_nonneg m = true)
    (hops : ∀ op ∈ ops, op_refresh_nonneg op = true) :
    qm_has_quota_available ⟨none⟩ = false ∧
    ((qm_consume_quota m n).1 = true ↔
      ∃ q2, m.cached_quota = some q2 ∧ n ≤ q2.remaining_downloads) ∧
    ((qm_consume_quota m n).1 = false → (qm_consume_quota m n).2 = m) ∧
    (m.cached_quota = some q → n ≤ q.remaining_downloads →
      (qm_consume_quota m n).2.cached_quota =
        some { q with remaining_downloads := q.remaining_downloads - n }) ∧
    quota_nonneg (ops.foldl quota_step m) = true := by
  refine ⟨rfl, ?_, ?_, ?_, ?_⟩
  · constructor
    · intro h
      cases hm2 : m.cached_quota with
      | none => rw [qm_consume_quota, hm2] at h; exact absurd h (by simp)
      | some q2 =>
        refine ⟨q2, rfl, ?_⟩
        by_cases hc : n ≤ q2.remaining_downloads
        · exact hc
        · rw [qm_consume_quota, hm2] at h; simp [hc] at h
    · rintro ⟨q2, hq2, hc⟩
      rw [qm_consume_quota, hq2]
      simp [hc]
  · intro h
    cases hm2 : m.cached_quota with
    | none => rw [qm_consume_quota, hm2]
    | some q2 =>
      by_cases hc : n ≤ q2.remaining_downloads
      · rw [qm_consume_quota, hm2] at h; simp [hc] at h
      · rw [qm_consume_quota, hm2]; simp [hc]
  · intro hq hc
    rw [qm_consume_quota, hq]
    simp [hc]
  · induction ops generalizing m with
    | nil => exact hm
    | cons op rest ih =>
      exact ih (quota_step m op)
        (quota_step_nonneg m op hm (hops op (by simp)))
        (fun o ho => hops o (List.mem_cons_of_mem _ ho))

/-- Witness for C8 at a concrete cache holding 2 remaining downloads,
with a consume-consume-refresh operation history. -/
theorem C8_quota_manager_witness :
    quota_nonneg
      ([QuotaOp.consume 1, QuotaOp.consume 5, QuotaOp.refresh 3 10 7].foldl
        quota_step ⟨some ⟨2, 10, none, none⟩⟩) = true :=
  (C8_quota_manager ⟨some ⟨2, 10, none, none⟩⟩ ⟨2, 10, none, none⟩ 1
      [QuotaOp.consume 1, QuotaOp.consume 5, QuotaOp.refresh 3 10 7]
      (by decide) (by decide)).2.2.2.2

/-- The download transfer of DownloadStage.process_book, as fed by
_download_book_async: an exception propagates, a boolean result moves a
successful book to DOWNLOAD_COMPLETE (stages/download_stage.py, lines
374-383). -/
def run_download (book_status : BookStatus) (qm : Option QuotaManagerSt)
    (download_result : Except PyExc Bool) :
    Except PyExc (Bool × BookStatus × Option QuotaManagerSt) :=
  match download_result with
  | .error e => .error e
  | .ok success =>
    .ok (success, if success then DOWNLOAD_COMPLETE else book_status, qm)

/-- DownloadStage.process_book (stages/download_stage.py, lines
342-383), the quota-aware entry point: a book not in SEARCH_COMPLETE
raises; with a quota manager, an unavailable quota (or a failed
consume) routes through handle_quota_exhausted, which sets the book to
SEARCH_COMPLETE_QUOTA_EXHAUSTED and reports success; otherwise one
quota unit is consumed and the download runs.  The returned triple is
(handler result, book status after the call, quota cache after the
call). -/
def process_book (book_status : BookStatus) (quota_manager : Option QuotaManagerSt)
    (download_result : Except PyExc Bool) :
    Except PyExc (Bool × BookStatus × Option QuotaManagerSt) :=
  if book_status ≠ SEARCH_COMPLETE then
    .error (.processingError
      ("书籍状态不正确: " ++ book_status.value ++ ", 需要 SEARCH_COMPLETE") "system" true)
  else
    match quota_manager with
    | some m =>
      if ¬ qm_has_quota_available m then
        .ok (true, SEARCH_COMPLETE_QUOTA_EXHAUSTED, some m)
      else
        let res := qm_consume_quota m 1
        if ¬ res.1 then
          .ok (true, SEARCH_COMPLETE_QUOTA_EXHAUSTED, some res.2)
        else
          run_download book_status (some res.2) download_result
    | none => run_download book_status none download_result

/-- Claim C5 (confirmed): when the quota manager reports no quota
available, process_book on a SEARCH_COMPLETE book sets the book to
SEARCH_COMPLETE_QUOTA_EXHAUSTED and returns success, with the quota
cache returned unchanged — no quota unit is consumed. -/
theorem C5_quota_exhausted_path (m : QuotaManagerSt) (dl : Except PyExc Bool)
    (h : qm_has_quota_available m = false) :
    process_book SEARCH_COMPLETE (some m) dl =
      .ok (true, SEARCH_COMPLETE_QUOTA_EXHAUSTED, some m) := by
  unfold process_book
  simp [h]

/-- Witness for C5: a cache reporting 0 remaining downloads. -/
theorem C5_quota_exhausted_path_witness :
    process_book SEARCH_COMPLETE (some ⟨some ⟨0, 10, none, none⟩⟩) (.ok true) =
      .ok (true, SEARCH_COMPLETE_QUOTA_EXHAUSTED, some ⟨some ⟨0, 10, none, none⟩⟩) :=
  C5_quota_exhausted_path ⟨some ⟨0, 10, none, none⟩⟩ (.ok true) (by decide)

/-- Python \w for the preprocessing regex (ASCII model: alphanumeric or
underscore; the concrete strings evaluated below stay in this range). -/
def pyWordChar (c : Char) : Bool :=
  c.isAlphanum || c = '_'

/-- Python str.strip(): drop whitespace at both ends. -/
def pyStrip (s : String) : String :=
  String.mk (((s.data.dropWhile Char.isWhitespace).reverse.dropWhile
    Char.isWhitespace).reverse)

/-- The text preprocessing of _calculate_text_similarity
(services/zlibrary_service.py): lowercase, replace every character that
is neither word nor whitespace by a space, then strip. -/
def preprocessText (s : String) : String :=
  pyStrip (String.mk ((py_lower s).data.map
    (fun c => if pyWordChar c || c.isWhitespace then c else ' ')))

/-- ZLibraryService._calculate_text_similarity
(services/zlibrary_service.py): empty input gives 0, equal preprocessed
texts give 1, otherwise the difflib SequenceMatcher ratio of the
preprocessed texts.  The external difflib ratio is the parameter
`ratio`; the claims only use that its values lie in [0, 1]. -/
def calculate_text_similarity (ratio : String → String → ℚ)
    (text1 text2 : String) : ℚ :=
  if text1 = "" || text2 = "" then 0
  else
    let t1 := preprocessText text1
    let t2 := preprocessText text2
    if t1 = t2 then 1 else ratio t1 t2

/-- re.search of four consecutive digits: the value of the leftmost
run of 4 digits, scanning left to right. -/
def find4Digits : List Char → Option Nat
  | c1 :: c2 :: c3 :: c4 :: rest =>
    if c1.isDigit && c2.isDigit && c3.isDigit && c4.isDigit then
      some ((c1.toNat - 48) * 1000 + (c2.toNat - 48) * 100 +
        (c3.toNat - 48) * 10 + (c4.toNat - 48))
    else find4Digits (c2 :: c3 :: c4 :: rest)
  | _ => none

/-- Digit run to number. -/
def digitsToNat (l : List Char) : Nat :=
  l.foldl (fun acc c => acc * 10 + (c.toNat - 48)) 0

/-- Python int(str): optional surrounding whitespace, optional sign,
digits; anything else raises ValueError, modelled as none. -/
def pyIntParse (s : String) : Option Int :=
  match ((s.data.dropWhile Char.isWhitespace).reverse.dropWhile
      Char.isWhitespace).reverse with
  | [] => none
  | '-' :: rest =>
    if rest ≠ [] && rest.all Char.isDigit then some (-(digitsToNat rest : Int))
    else none
  | '+' :: rest =>
    if rest ≠ [] && rest.all Char.isDigit then some (digitsToNat rest : Int)
    else none
  | l =>
    if l.all Char.isDigit then some (digitsToNat l : Int) else none

/-- ZLibraryService._calculate_year_similarity
(services/zlibrary_service.py): extract a 4-digit year from the source
date, parse the candidate year; equal years give 1, distance ≤ 1 gives
0.8, distance ≤ 2 gives 0.6, otherwise 0; parse failures give 0. -/
def calculate_year_similarity (date_str year_str : String) : ℚ :=
  if date_str = "" || year_str = "" then 0
  else
    match find4Digits date_str.data with
    | some dy =>
      match pyIntParse year_str with
      | some zy =>
        if (dy : Int) = zy then 1
        else if ((dy : Int) - zy).natAbs ≤ 1 then 8/10
        else if ((dy : Int) - zy).natAbs ≤ 2 then 6/10
        else 0
      | none => 0
    | none => 0

/-- ZLibraryService._calculate_isbn_similarity
(services/zlibrary_service.py): strip non-digits from both ISBNs and
compare; 1 on a non-empty exact match, otherwise 0. -/
def calculate_isbn_similarity (isbn1 isbn2 : String) : ℚ :=
  if isbn1 = "" || isbn2 = "" then 0
  else
    let c1 := isbn1.data.filter Char.isDigit
    let c2 := isbn2.data.filter Char.isDigit
    if c1 ≠ [] ∧ c2 ≠ [] ∧ c1 = c2 then 1 else 0

/-- Python str.replace for the double-semicolon author separator. -/
def replaceSemis : List Char → List Char
  | ';' :: ';' :: rest => ' ' :: replaceSemis rest
  | c :: rest => c :: replaceSemis rest
  | [] => []

/-- zlibrary_book.get('authors').replace(';;', ' '). -/
def py_replace_dsemi (s : String) : String :=
  String.mk (replaceSemis s.data)

/-- The source record fields read by calculate_match_score. -/
structure DoubanInfo where
  title : String
  author : String
  publisher : String
  publish_date : String
  isbn : String
deriving DecidableEq, Repr

/-- The candidate record fields read by calculate_match_score. -/
structure ZLibraryInfo where
  title : String
  authors : String
  publisher : String
  year : String
  isbn : String
deriving DecidableEq, Repr

/-- ZLibraryService.calculate_match_score (services/zlibrary_service.py,
lines 358-403): weighted sum of title (0.4), author (0.3), publisher
(0.15), year (0.1) and an ISBN exact-match bonus (0.05), capped at 1.
There is no short-circuit: an exact ISBN match only contributes the
0.05 bonus. -/
def calculate_match_score (ratio : String → String → ℚ)
    (douban_book : DoubanInfo) (zlibrary_book : ZLibraryInfo) : ℚ :=
  let title_score := calculate_text_similarity ratio douban_book.title zlibrary_book.title
  let author_score := calculate_text_similarity ratio douban_book.author
    (py_replace_dsemi zlibrary_book.authors)
  let publisher_score := calculate_text_similarity ratio douban_book.publisher
    zlibrary_book.publisher
  let year_score := calculate_year_similarity douban_book.publish_date zlibrary_book.year
  let isbn_score := calculate_isbn_similarity douban_book.isbn zlibrary_book.isbn
  min 1 (title_score * (4/10) + author_score * (3/10) + publisher_score * (15/100) +
    year_score * (1/10) + isbn_score * (5/100))

theorem calculate_text_similarity_bounds (ratio : String → String → ℚ)
    (hr : ∀ s t, 0 ≤ ratio s t ∧ ratio s t ≤ 1) (t1 t2 : String) :
    0 ≤ calculate_text_similarity ratio t1 t2 ∧
      calculate_text_similarity ratio t1 t2 ≤ 1 := by
  unfold calculate_text_similarity
  split
  · norm_num
  · dsimp only
    split
    · norm_num
    · exact hr _ _

theorem calculate_year_similarity_mem (a b : String) :
    calculate_year_similarity a b = 0 ∨ calculate_year_similarity a b = 6/10 ∨
      calculate_year_similarity a b = 8/10 ∨ calculate_year_similarity a b = 1 := by
  unfold calculate_year_similarity
  repeat' split
  all_goals norm_num

theorem calculate_isbn_similarity_mem (a b : String) :
    calculate_isbn_similarity a b = 0 ∨ calculate_isbn_similarity a b = 1 := by
  unfold calculate_isbn_similarity
  split
  · exact Or.inl rfl
  · dsimp only
    split
    · exact Or.inr rfl
    · exact Or.inl rfl

/-- Claim C4 (corrected): the match score is the weighted sum
title·0.40 + author·0.30 + publisher·0.15 + year·0.10 + isbn·0.05
(year scored 1 / 0.8 / 0.6 / 0 by distance, ISBN bonus 0.05 on exact
match) and always lies in [0, 1]; the min-1 cap never binds because the
weights sum to 1.  There is NO full-score short-circuit on an exact
external-id match: an exact ISBN match contributes only the 0.05 bonus. -/
theorem C4_match_score (ratio : String → String → ℚ)
    (hr : ∀ s t, 0 ≤ ratio s t ∧ ratio s t ≤ 1)
    (d : DoubanInfo) (z : ZLibraryInfo) :
    0 ≤ calculate_match_score ratio d z ∧
    calculate_match_score ratio d z ≤ 1 ∧
    calculate_match_score ratio d z =
      calculate_text_similarity ratio d.title z.title * (4/10) +
      calculate_text_similarity ratio d.author (py_replace_dsemi z.authors) * (3/10) +
      calculate_text_similarity ratio d.publisher z.publisher * (15/100) +
      calculate_year_similarity d.publish_date z.year * (1/10) +
      calculate_isbn_similarity d.isbn z.isbn * (5/100) := by
  obtain ⟨ht0, ht1⟩ := calculate_text_similarity_bounds ratio hr d.title z.title
  obtain ⟨ha0, ha1⟩ := calculate_text_similarity_bounds ratio hr d.author
    (py_replace_dsemi z.authors)
  obtain ⟨hp0, hp1⟩ := calculate_text_similarity_bounds ratio hr d.publisher z.publisher
  have hy : 0 ≤ calculate_year_similarity d.publish_date z.year ∧
      calculate_year_similarity d.publish_date z.year ≤ 1 := by
    rcases calculate_year_similarity_mem d.publish_date z.year with h | h | h | h <;>
      rw [h] <;> norm_num
  have hi : 0 ≤ calculate_isbn_similarity d.isbn z.isbn ∧
      calculate_isbn_similarity d.isbn z.isbn ≤ 1 := by
    rcases calculate_isbn_similarity_mem d.isbn z.isbn with h | h <;>
      rw [h] <;> norm_num
  have hsum0 : 0 ≤
      calculate_text_similarity ratio d.title z.title * (4/10) +
      calculate_text_similarity ratio d.author (py_replace_dsemi z.authors) * (3/10) +
      calculate_text_similarity ratio d.publisher z.publisher * (15/100) +
      calculate_year_similarity d.publish_date z.year * (1/10) +
      calculate_isbn_similarity d.isbn z.isbn * (5/100) := by
    have h1 := mul_nonneg ht0 (by norm_num : (0:ℚ) ≤ 4/10)
    have h2 := mul_nonneg ha0 (by norm_num : (0:ℚ) ≤ 3/10)
    have h3 := mul_nonneg hp0 (by norm_num : (0:ℚ) ≤ 15/100)
    have h4 := mul_nonneg hy.1 (by norm_num : (0:ℚ) ≤ 1/10)
    have h5 := mul_nonneg hi.1 (by norm_num : (0:ℚ) ≤ 5/100)
    linarith
  have hsum1 :
      calculate_text_similarity ratio d.title z.title * (4/10) +
      calculate_text_similarity ratio d.author (py_replace_dsemi z.authors) * (3/10) +
      calculate_text_similarity ratio d.publisher z.publisher * (15/100) +
      calculate_year_similarity d.publish_date z.year * (1/10) +
      calculate_isbn_similarity d.isbn z.isbn * (5/100) ≤ 1 := by
    have h1 := mul_le_mul_of_nonneg_right ht1 (by norm_num : (0:ℚ) ≤ 4/10)
    have h2 := mul_le_mul_of_nonneg_right ha1 (by norm_num : (0:ℚ) ≤ 3/10)
    have h3 := mul_le_mul_of_nonneg_right hp1 (by norm_num : (0:ℚ) ≤ 15/100)
    have h4 := mul_le_mul_of_nonneg_right hy.2 (by norm_num : (0:ℚ) ≤ 1/10)
    have h5 := mul_le_mul_of_nonneg_right hi.2 (by norm_num : (0:ℚ) ≤ 5/100)
    linarith
  have hmin : calculate_match_score ratio d z =
      calculate_text_similarity ratio d.title z.title * (4/10) +
      calculate_text_similarity ratio d.author (py_replace_dsemi z.authors) * (3/10) +
      calculate_text_similarity ratio d.publisher z.publisher * (15/100) +
      calculate_year_similarity d.publish_date z.year * (1/10) +
      calculate_isbn_similarity d.isbn z.isbn * (5/100) := by
    simp only [calculate_match_score]
    exact min_eq_right hsum1
  exact ⟨by rw [hmin]; exact hsum0, by rw [hmin]; exact hsum1, hmin⟩

/-- Witness for C4: bounds at a concrete record pair under a concrete
in-range ratio function. -/
theorem C4_match_score_witness :
    0 ≤ calculate_match_score (fun _ _ => 1/2)
      ⟨"t", "a", "p", "2001", "978"⟩ ⟨"t2", "a2", "p2", "2002", "978"⟩ :=
  (C4_match_score (fun _ _ => 1/2) (by intro s t; norm_num)
    ⟨"t", "a", "p", "2001", "978"⟩ ⟨"t2", "a2", "p2", "2002", "978"⟩).1

/-- Counterexample for C4 as stated: the two records have exactly
matching external ids (ISBN "123") and all text fields empty, so the
score is only the 0.05 bonus — there is no full-score short-circuit
returning 1.0 on an exact external-id match.  The ratio argument is
irrelevant here: every text similarity short-circuits to 0 on the
empty inputs before difflib would be consulted. -/
theorem C4_counterexample :
    calculate_match_score (fun _ _ => 0)
        ⟨"", "", "", "", "123"⟩ ⟨"", "", "", "", "123"⟩ = 1/20 ∧
      ((1 : ℚ)/20 ≠ 1) := by
  constructor
  · have h : calculate_match_score (fun _ _ => 0)
        ⟨"", "", "", "", "123"⟩ ⟨"", "", "", "", "123"⟩ =
        min 1 ((0 : ℚ) * (4/10) + 0 * (3/10) + 0 * (15/100) + 0 * (1/10) +
          1 * (5/100)) := rfl
    rw [h, show (0 : ℚ) * (4/10) + 0 * (3/10) + 0 * (15/100) + 0 * (1/10) +
      1 * (5/100) = 1/20 by norm_num]
    exact min_eq_right (by norm_num)
  · norm_num

/-- The candidate row fields read by _add_best_match_to_queue
(db/models.py, ZLibraryBook). -/
structure ZBook where
  id : Nat
  match_score : ℚ
  extension : String
  is_available : Bool
  download_url : String
  url : String
deriving DecidableEq, Repr

/-- The format_priority dict of _add_best_match_to_queue
(stages/search_stage.py, line 384), with dict.get default 0. -/
def format_priority (ext : String) : Nat :=
  if ext = "epub" then 3
  else if ext = "mobi" then 2
  else if ext = "pdf" then 1
  else if ext = "azw3" then 2
  else if ext = "txt" then 0
  else 0

/-- `zlib_book.extension.lower() if zlib_book.extension else ''`. -/
def ext_key (e : String) : String :=
  if e = "" then "" else py_lower e

/-- The format tie-break loop of _add_best_match_to_queue
(stages/search_stage.py, lines 385-394): walk the top three candidates;
whenever one is within 0.1 of the best score and has a strictly better
format score than the current pick, it becomes the pick. -/
def pick_best_candidate (best_match : ZBook) (top3 : List ZBook) : ZBook :=
  top3.foldl
    (fun best_candidate zb =>
      if best_match.match_score - zb.match_score ≤ 1/10 then
        if format_priority (ext_key best_candidate.extension) <
            format_priority (ext_key zb.extension) then zb
        else best_candidate
      else best_candidate)
    best_match

/-- The winning candidate of _add_best_match_to_queue: filter the
stored results to available rows meeting min_match_score, order by
score descending, and apply the format tie-break to the top three. -/
def winning_candidate (results : List ZBook) (min_match_score : ℚ) : Option ZBook :=
  let zs := (results.filter
      (fun z => z.is_available && min_match_score ≤ z.match_score)).insertionSort
    (fun a b => b.match_score ≤ a.match_score)
  match zs with
  | [] => none
  | best_match :: _ => some (pick_best_candidate best_match (zs.take 3))

/-- One download-queue row (db/models.py, DownloadQueue), the fields
written by the search stage. -/
structure QueueItem where
  douban_book_id : Nat
  zlibrary_book_id : Nat
  download_url : String
  priority : Int
  status : String
deriving DecidableEq, Repr

/-- Python int() on a rational: truncation toward zero. -/
def pyInt (q : ℚ) : ℤ :=
  if 0 ≤ q then ⌊q⌋ else -⌊-q⌋

/-- SearchStage._add_best_match_to_queue (stages/search_stage.py, lines
349-415): an existing queue row short-circuits to true; no qualifying
candidate gives false; otherwise the winning candidate is inserted with
priority int(match_score * 100) — Python int(), i.e. truncation — and
status queued.  The boolean is the function's return value, the option
the inserted row. -/
def add_best_match_to_queue (existing_queue_item : Bool) (results : List ZBook)
    (min_match_score : ℚ) (book_id : Nat) : Bool × Option QueueItem :=
  if existing_queue_item then (true, none)
  else
    match winning_candidate results min_match_score with
    | none => (false, none)
    | some best_candidate =>
      (true, some
        { douban_book_id := book_id
          zlibrary_book_id := best_candidate.id
          download_url :=
            if best_candidate.download_url ≠ "" then best_candidate.download_url
            else best_candidate.url
          priority := pyInt (best_candidate.match_score * 100)
          status := "queued" })

theorem foldl_choice_mem {α : Type} (f : α → α → α)
    (hf : ∀ a x, f a x = a ∨ f a x = x) :
    ∀ (l : List α) (acc : α), l.foldl f acc = acc ∨ l.foldl f acc ∈ l := by
  intro l
  induction l with
  | nil => intro acc; exact Or.inl rfl
  | cons x t ih =>
    intro acc
    rcases ih (f acc x) with h | h
    · rw [List.foldl_cons, h]
      rcases hf acc x with h2 | h2
      · exact Or.inl h2
      · exact Or.inr (by rw [h2]; exact List.mem_cons_self x t)
    · exact Or.inr (List.mem_cons_of_mem _ (by rw [List.foldl_cons]; exact h))

theorem pick_best_candidate_mem (best_match : ZBook) (top3 : List ZBook) :
    pick_best_candidate best_match top3 = best_match ∨
      pick_best_candidate best_match top3 ∈ top3 := by
  apply foldl_choice_mem
  intro a x
  by_cases h1 : best_match.match_score - x.match_score ≤ 1/10
  · by_cases h2 : format_priority (ext_key a.extension) <
        format_priority (ext_key x.extension)
    · exact Or.inr (by rw [if_pos h1, if_pos h2])
    · exact Or.inl (by rw [if_pos h1, if_neg h2])
  · exact Or.inl (by rw [if_neg h1])

theorem winning_candidate_mem (results : List ZBook) (ms : ℚ) (zb : ZBook)
    (h : winning_candidate results ms = some zb) :
    zb ∈ results ∧ zb.is_available = true ∧ ms ≤ zb.match_score := by
  unfold winning_candidate at h
  rcases hcase : (results.filter
      (fun z => z.is_available && ms ≤ z.match_score)).insertionSort
      (fun a b => b.match_score ≤ a.match_score) with _ | ⟨best, rest⟩
  · rw [hcase] at h
    exact absurd h (by simp)
  · rw [hcase] at h
    simp only [Option.some.injEq] at h
    have hmem : zb ∈ best :: rest := by
      rcases pick_best_candidate_mem best ((best :: rest).take 3) with h2 | h2
      · have hzb : zb = best := by rw [← h, h2]
        rw [hzb]
        exact List.mem_cons_self _ _
      · rw [h] at h2
        exact List.take_subset 3 (best :: rest) h2
    have hfil : zb ∈ results.filter (fun z => z.is_available && ms ≤ z.match_score) := by
      have hperm := List.perm_insertionSort
        (fun a b : ZBook => b.match_score ≤ a.match_score)
        (results.filter (fun z => z.is_available && ms ≤ z.match_score))
      apply hperm.mem_iff.mp
      rw [hcase]
      exact hmem
    have hsplit := List.mem_filter.mp hfil
    have h2 := hsplit.2
    simp only [Bool.and_eq_true, decide_eq_true_eq] at h2
    exact ⟨hsplit.1, h2.1, h2.2⟩

theorem winning_candidate_singleton (zb : ZBook) (ms : ℚ)
    (h1 : zb.is_available = true) (h2 : ms ≤ zb.match_score) :
    winning_candidate [zb] ms = some zb := by
  unfold winning_candidate
  have hc : (zb.is_available && decide (ms ≤ zb.match_score)) = true := by
    simp [h1, h2]
  simp only [List.filter, hc]
  simp only [List.insertionSort, List.orderedInsert, List.take]
  simp only [pick_best_candidate, List.foldl, sub_self]
  rw [if_pos (by norm_num : (0:ℚ) ≤ 1/10), if_neg (lt_irrefl _)]

/-- Claim C9 (corrected): the queue row inserted by the search stage
carries priority int(score · 100) of the winning candidate — Python
int(), which truncates (for non-negative scores, the floor) — not
round(score · 100); for a winning score in [0, 1] the priority lies in
[0, 100], and the winner comes from the stored results, is available
and clears the threshold. -/
theorem C9_queue_priority (results : List ZBook) (min_score : ℚ) (book_id : Nat)
    (zb : ZBook)
    (h : winning_candidate results min_score = some zb)
    (h0 : 0 ≤ zb.match_score) (h1 : zb.match_score ≤ 1) :
    add_best_match_to_queue false results min_score book_id =
      (true, some
        { douban_book_id := book_id
          zlibrary_book_id := zb.id
          download_url := if zb.download_url ≠ "" then zb.download_url else zb.url
          priority := pyInt (zb.match_score * 100)
          status := "queued" }) ∧
    pyInt (zb.match_score * 100) = ⌊zb.match_score * 100⌋ ∧
    0 ≤ ⌊zb.match_score * 100⌋ ∧ ⌊zb.match_score * 100⌋ ≤ 100 ∧
    zb ∈ results ∧ zb.is_available = true ∧ min_score ≤ zb.match_score := by
  have hnn : (0 : ℚ) ≤ zb.match_score * 100 :=
    mul_nonneg h0 (by norm_num)
  refine ⟨?_, ?_, ?_, ?_, ?_⟩
  · unfold add_best_match_to_queue
    rw [h]
    simp
  · unfold pyInt
    rw [if_pos hnn]
  · exact Int.le_floor.mpr (by exact_mod_cast hnn)
  · have hle : zb.match_score * 100 ≤ (100 : ℚ) := by nlinarith
    have := Int.floor_le_floor hle
    simpa using this
  · exact winning_candidate_mem results min_score zb h

/-- Witness for C9: a single qualifying epub candidate with score 0.87
is inserted with priority 87. -/
theorem C9_queue_priority_witness :
    add_best_match_to_queue false [⟨11, 87/100, "epub", true, "u", "v"⟩] (6/10) 1 =
      (true, some
        { douban_book_id := 1
          zlibrary_book_id := 11
          download_url :=
            if ("u" : String) ≠ "" then "u" else "v"
          priority := pyInt ((87 : ℚ)/100 * 100)
          status := "queued" }) :=
  (C9_queue_priority [⟨11, 87/100, "epub", true, "u", "v"⟩] (6/10) 1
    ⟨11, 87/100, "epub", true, "u", "v"⟩
    (winning_candidate_singleton ⟨11, 87/100, "epub", true, "u", "v"⟩ (6/10)
      rfl (by norm_num))
    (by norm_num) (by norm_num)).1

/-- Counterexample for C9 as stated: a winning candidate with score
0.999 is inserted with priority int(99.9) = 99, while
round(0.999 · 100) = 100; the code truncates instead of rounding. -/
theorem C9_counterexample :
    (add_best_match_to_queue false [⟨11, 999/1000, "epub", true, "u", "v"⟩]
        (6/10) 1).2 =
      some ⟨1, 11, "u", 99, "queued"⟩ ∧
    round ((999/1000 : ℚ) * 100) = 100 := by
  constructor
  · have hw := winning_candidate_singleton ⟨11, 999/1000, "epub", true, "u", "v"⟩
      (6/10) rfl (by norm_num)
    unfold add_best_match_to_queue
    rw [hw]
    have hp : pyInt ((999/1000 : ℚ) * 100) = 99 := by
      unfold pyInt
      rw [if_pos (by norm_num : (0:ℚ) ≤ 999/1000 * 100),
        show (999/1000 : ℚ) * 100 = 999/10 by norm_num,
        Int.floor_eq_iff]
      norm_num
    simp only [hp]
    simp
  · norm_num [round_eq]

end ZRE
